import Mathlib

/-!
Verification of the mosaic image-augmentation composer (src/main.py).

The program composites four cropped images into one canvas and remaps the
normalized YOLO bounding boxes of each quadrant into the canvas frame.
We embed the geometric/annotation core of `mosaic` (src/main.py lines
80-212) and the path builder `create_data_store_path` (lines 62-77).

Modelling conventions:
* Python floats are modelled as exact rationals (ℚ).
* Python `int(q)` truncates toward zero; `pyInt` reproduces that.
* A YOLO box `(x_center, y_center, w, h)` is the structure `Box`.
* Class labels are opaque identifiers, modelled as ℕ.
* The random crop (`random_crop_savebboxes`, which delegates to the
  albumentations library) is external to the composer; the composer is
  therefore parameterized by the four crop results.
-/

/-- A normalized YOLO bounding box `(x_center, y_center, w, h)`.
In Python a box is a 4-sequence with indices 0 = x_center, 1 = y_center,
2 = w, 3 = h. -/
structure Box where
  x : ℚ
  y : ℚ
  w : ℚ
  h : ℚ
deriving DecidableEq, Repr

/-- Python `int(q)`: truncation toward zero. -/
def pyInt (q : ℚ) : ℤ := if 0 ≤ q then ⌊q⌋ else ⌈q⌉

/-- `div_point_x = int(mo_w * scale_x)` (src/main.py line 102). -/
def div_point_x (mo_w : ℕ) (scale_x : ℚ) : ℤ := pyInt ((mo_w : ℚ) * scale_x)

/-- `div_point_y = int(mo_h * scale_y)` (src/main.py line 103). -/
def div_point_y (mo_h : ℕ) (scale_y : ℚ) : ℤ := pyInt ((mo_h : ℚ) * scale_y)

/-- Target crop width of each quadrant: `w0 = div_point_x`,
`w1 = mo_w - div_point_x`, `w2 = div_point_x`, `w3 = mo_w - div_point_x`
(src/main.py lines 109, 136, 158, 180). -/
def quadTargetW (mo_w : ℕ) (scale_x : ℚ) : Fin 4 → ℤ
  | 0 => div_point_x mo_w scale_x
  | 1 => (mo_w : ℤ) - div_point_x mo_w scale_x
  | 2 => div_point_x mo_w scale_x
  | 3 => (mo_w : ℤ) - div_point_x mo_w scale_x

/-- Target crop height of each quadrant: `h0 = div_point_y`,
`h1 = div_point_y`, `h2 = mo_h - div_point_y`, `h3 = mo_h - div_point_y`
(src/main.py lines 110, 137, 159, 181). -/
def quadTargetH (mo_h : ℕ) (scale_y : ℚ) : Fin 4 → ℤ
  | 0 => div_point_y mo_h scale_y
  | 1 => div_point_y mo_h scale_y
  | 2 => (mo_h : ℤ) - div_point_y mo_h scale_y
  | 3 => (mo_h : ℤ) - div_point_y mo_h scale_y

/-- Box remap for the top-left quadrant (src/main.py lines 128-133):
`x' = x*scale_x`, `w' = w*scale_x`, `y' = y*scale_y`, `h' = h*scale_y`. -/
def remap_box_0 (scale_x scale_y : ℚ) (box : Box) : Box :=
  { x := box.x * scale_x
    w := box.w * scale_x
    y := box.y * scale_y
    h := box.h * scale_y }

/-- Box remap for the top-right quadrant (src/main.py lines 150-155):
`x' = x*(1-scale_x)+scale_x`, `w' = w*(1-scale_x)`, `y' = y*scale_y`,
`h' = h*scale_y`. -/
def remap_box_1 (scale_x scale_y : ℚ) (box : Box) : Box :=
  { x := box.x * (1 - scale_x) + scale_x
    w := box.w * (1 - scale_x)
    y := box.y * scale_y
    h := box.h * scale_y }

/-- Box remap for the bottom-left quadrant (src/main.py lines 172-177):
`x' = x*scale_x`, `w' = w*scale_x`, `y' = y*(1-scale_y)+scale_y`,
`h' = h*(1-scale_y)`. -/
def remap_box_2 (scale_x scale_y : ℚ) (box : Box) : Box :=
  { x := box.x * scale_x
    w := box.w * scale_x
    y := box.y * (1 - scale_y) + scale_y
    h := box.h * (1 - scale_y) }

/-- Box remap for the bottom-right quadrant (src/main.py lines 194-199):
`x' = x*(1-scale_x)+scale_x`, `w' = w*(1-scale_x)`,
`y' = y*(1-scale_y)+scale_y`, `h' = h*(1-scale_y)`. -/
def remap_box_3 (scale_x scale_y : ℚ) (box : Box) : Box :=
  { x := box.x * (1 - scale_x) + scale_x
    w := box.w * (1 - scale_x)
    y := box.y * (1 - scale_y) + scale_y
    h := box.h * (1 - scale_y) }

/-- The per-quadrant box remap, dispatching on the quadrant index as the
`if not i / elif i == 1 / elif i == 2 / else` chain in `mosaic` does. -/
def quadRemap : Fin 4 → ℚ → ℚ → Box → Box
  | 0 => remap_box_0
  | 1 => remap_box_1
  | 2 => remap_box_2
  | 3 => remap_box_3

/-- `bboxes_i_new`: the list of remapped boxes of quadrant `i`.  The source
branches on `len(bboxes) == 0` (returning `[]`) and otherwise fills a fresh
zero-initialized row per input index with the remapped coordinates
(src/main.py lines 117-133 and the three analogous blocks). -/
def remap_bboxes (i : Fin 4) (scale_x scale_y : ℚ) (bboxes : List Box) :
    List Box :=
  if bboxes.length = 0 then []
  else bboxes.map (quadRemap i scale_x scale_y)

/-- One quadrant stage of the composer after the crop: the boxes are
remapped, the class labels are carried through untouched
(`class_labels_i` is used as returned by the crop; src/main.py lines
111-133 and analogous blocks, then line 202). -/
def quad_stage (i : Fin 4) (scale_x scale_y : ℚ)
    (crop : List Box × List ℕ) : List Box × List ℕ :=
  (remap_bboxes i scale_x scale_y crop.1, crop.2)

/-- `new_bboxes = bboxes_0_new + bboxes_1_new + bboxes_2_new + bboxes_3_new`
(src/main.py line 204). -/
def new_bboxes (scale_x scale_y : ℚ) (b0 b1 b2 b3 : List Box) : List Box :=
  remap_bboxes 0 scale_x scale_y b0 ++ remap_bboxes 1 scale_x scale_y b1 ++
  remap_bboxes 2 scale_x scale_y b2 ++ remap_bboxes 3 scale_x scale_y b3

/-- `new_class_labels = class_labels_0 + class_labels_1 + class_labels_2 +
class_labels_3` (src/main.py line 202). -/
def new_class_labels (l0 l1 l2 l3 : List ℕ) : List ℕ :=
  l0 ++ l1 ++ l2 ++ l3

/-- Length of the Python slice `l[:stop]` for a dimension of size `n`
(numpy basic slicing: a nonnegative bound clamps to `n`, a negative bound
counts from the end). -/
def sliceToLen (n : ℕ) (stop : ℤ) : ℕ :=
  if 0 ≤ stop then min stop.toNat n else n - min (-stop).toNat n

/-- Length of the Python slice `l[start:]` for a dimension of size `n`. -/
def sliceFromLen (n : ℕ) (start : ℤ) : ℕ :=
  if 0 ≤ start then n - min start.toNat n else min (-start).toNat n

/-- Row extent of the canvas slice written by quadrant `i`: `[:div_point_y]`
for the top quadrants, `[div_point_y:]` for the bottom quadrants
(src/main.py lines 114, 140, 162, 184). -/
def quadSliceRows (mo_h : ℕ) (divY : ℤ) : Fin 4 → ℕ
  | 0 => sliceToLen mo_h divY
  | 1 => sliceToLen mo_h divY
  | 2 => sliceFromLen mo_h divY
  | 3 => sliceFromLen mo_h divY

/-- Column extent of the canvas slice written by quadrant `i`:
`[:div_point_x]` for the left quadrants, `[div_point_x:]` for the right
quadrants (src/main.py lines 114, 140, 162, 184). -/
def quadSliceCols (mo_w : ℕ) (divX : ℤ) : Fin 4 → ℕ
  | 0 => sliceToLen mo_w divX
  | 1 => sliceFromLen mo_w divX
  | 2 => sliceToLen mo_w divX
  | 3 => sliceFromLen mo_w divX

/-- Success condition of the numpy assignment
`new_img[rows, cols, :] = img_i` (src/main.py lines 114, 140, 162, 184):
the slice of the `(mo_h, mo_w, 3)` canvas must have exactly the cropped
image's dimensions `(target_h, target_w)`, otherwise numpy raises
ValueError.  (numpy would also broadcast a size-1 image dimension, but a
target dimension of 1 derived from the same split point always coincides
with its slice, so plain equality is the faithful condition.) -/
def writeShapeOk (mo_w mo_h : ℕ) (scale_x scale_y : ℚ) (i : Fin 4) : Prop :=
  (quadSliceRows mo_h (div_point_y mo_h scale_y) i : ℤ) =
    quadTargetH mo_h scale_y i ∧
  (quadSliceCols mo_w (div_point_x mo_w scale_x) i : ℤ) =
    quadTargetW mo_w scale_x i

instance writeShapeOkDecidable (mo_w mo_h : ℕ) (scale_x scale_y : ℚ)
    (i : Fin 4) : Decidable (writeShapeOk mo_w mo_h scale_x scale_y i) :=
  inferInstanceAs (Decidable (_ ∧ _))

/-- The run-aborting Python exceptions of `mosaic`.  `invalidGeometry` is
the error the specification names for geometry validation; the source
contains no such validation and no raise site, so it is never produced.
`valueError` is numpy's exception at a shape-mismatched canvas write;
`cropError` stands for an exception raised inside the external
albumentations crop call (e.g. a non-positive target size). -/
inductive PyError where
  | invalidGeometry
  | valueError
  | cropError
deriving DecidableEq, Repr

/-- One iteration of the quadrant loop of `mosaic` (src/main.py lines
106-199): the crop (external; `none` models the library raising), then the
canvas write of line 114/140/162/184 (ValueError unless the slice shape
matches the cropped image), then the box remap of lines 117-133 and the
analogous blocks; the labels pass through untouched. -/
def quad_result (mo_w mo_h : ℕ) (scale_x scale_y : ℚ)
    (crop : Fin 4 → Option (List Box × List ℕ)) (i : Fin 4) :
    Except PyError (List Box × List ℕ) :=
  match crop i with
  | none => Except.error PyError.cropError
  | some (bs, ls) =>
    if writeShapeOk mo_w mo_h scale_x scale_y i then
      Except.ok (remap_bboxes i scale_x scale_y bs, ls)
    else Except.error PyError.valueError

/-- The annotation core of `mosaic` (src/main.py lines 80-212): the four
quadrants are processed strictly in order 0,1,2,3 and the first exception
aborts the run, so nothing of a later quadrant is computed after a failure;
on success the remapped boxes and the labels are concatenated in quadrant
order (lines 202-204).  The source performs no validation of `mo_w`,
`mo_h`, `scale_x`, `scale_y`, so no `invalidGeometry` error site exists;
the output files (lines 211-212) are written only after all four quadrants
succeed, which is why an aborted run leaves no partial output. -/
def mosaic_core (mo_w mo_h : ℕ) (scale_x scale_y : ℚ)
    (crop : Fin 4 → Option (List Box × List ℕ)) :
    Except PyError (List Box × List ℕ) :=
  match quad_result mo_w mo_h scale_x scale_y crop 0 with
  | Except.error e => Except.error e
  | Except.ok (b0, l0) =>
    match quad_result mo_w mo_h scale_x scale_y crop 1 with
    | Except.error e => Except.error e
    | Except.ok (b1, l1) =>
      match quad_result mo_w mo_h scale_x scale_y crop 2 with
      | Except.error e => Except.error e
      | Except.ok (b2, l2) =>
        match quad_result mo_w mo_h scale_x scale_y crop 3 with
        | Except.error e => Except.error e
        | Except.ok (b3, l3) =>
          Except.ok (b0 ++ b1 ++ b2 ++ b3, new_class_labels l0 l1 l2 l3)

/-- The canvas pixel region of quadrant `i` (row `r`, column `c`):
`new_img[:divY, :divX]`, `new_img[:divY, divX:]`, `new_img[divY:, :divX]`,
`new_img[divY:, divX:]` (src/main.py lines 114, 140, 162, 184), clipped to
the allocated canvas `(mo_h, mo_w)` of line 99. -/
def inQuad (mo_w mo_h : ℕ) (divX divY : ℤ) : Fin 4 → ℤ → ℤ → Prop
  | 0, r, c => 0 ≤ r ∧ r < divY ∧ 0 ≤ c ∧ c < divX
  | 1, r, c => 0 ≤ r ∧ r < divY ∧ divX ≤ c ∧ c < (mo_w : ℤ)
  | 2, r, c => divY ≤ r ∧ r < (mo_h : ℤ) ∧ 0 ≤ c ∧ c < divX
  | 3, r, c => divY ≤ r ∧ r < (mo_h : ℤ) ∧ divX ≤ c ∧ c < (mo_w : ℤ)

instance inQuadDecidable (mo_w mo_h : ℕ) (divX divY : ℤ) (i : Fin 4)
    (r c : ℤ) : Decidable (inQuad mo_w mo_h divX divY i r c) :=
  match i with
  | 0 => inferInstanceAs (Decidable (_ ∧ _ ∧ _ ∧ _))
  | 1 => inferInstanceAs (Decidable (_ ∧ _ ∧ _ ∧ _))
  | 2 => inferInstanceAs (Decidable (_ ∧ _ ∧ _ ∧ _))
  | 3 => inferInstanceAs (Decidable (_ ∧ _ ∧ _ ∧ _))

/-- The numpy region assignment `new_img[rows, cols, :] = img_i` of
src/main.py lines 114, 140, 162, 184.  A canvas or source image is a pixel
map `ℤ → ℤ → ℕ`; inside quadrant `i`'s region the canvas receives the
source pixel at the region-local offset, every other position keeps the
previous canvas value. -/
def writeQuad (mo_w mo_h : ℕ) (divX divY : ℤ) (i : Fin 4)
    (img canvas : ℤ → ℤ → ℕ) : ℤ → ℤ → ℕ := fun r c =>
  if inQuad mo_w mo_h divX divY i r c then
    match i with
    | 0 => img r c
    | 1 => img r (c - divX)
    | 2 => img (r - divY) c
    | 3 => img (r - divY) (c - divX)
  else canvas r c

/-- A YOLO box with centers in `[0,1]` and positive sizes at most 1, the
frame validity condition of the spec. -/
def Box.inUnit (b : Box) : Prop :=
  0 ≤ b.x ∧ b.x ≤ 1 ∧ 0 ≤ b.y ∧ b.y ≤ 1 ∧
  0 < b.w ∧ b.w ≤ 1 ∧ 0 < b.h ∧ b.h ≤ 1

instance (b : Box) : Decidable b.inUnit :=
  inferInstanceAs (Decidable (_ ∧ _ ∧ _ ∧ _ ∧ _ ∧ _ ∧ _ ∧ _))

/-- Python `name.split('.')[0]`: the part of a file name before its first
dot (the whole name if it has none), as used by `create_data_store_path`
(src/main.py lines 66-75). -/
def fileBase (s : String) : String :=
  String.mk (s.data.takeWhile (fun c => c ≠ '.'))

/-- `create_data_store_path` (src/main.py lines 62-77) applied to a
four-element `image_file_list`: joins each output directory (posix
separator) with `mo_<b0>_<b1>_<b2>_<b3>` built from the first-dot bases of
the four names, with the image extension fixed to `.jpg` and the label
extension to `.txt`. -/
def create_data_store_path (output_image_dir output_label_dir : String)
    (f0 f1 f2 f3 : String) : String × String :=
  (output_image_dir ++ "/" ++ ("mo_" ++ fileBase f0 ++ "_" ++
      fileBase f1 ++ "_" ++ fileBase f2 ++ "_" ++ fileBase f3 ++ ".jpg"),
   output_label_dir ++ "/" ++ ("mo_" ++ fileBase f0 ++ "_" ++
      fileBase f1 ++ "_" ++ fileBase f2 ++ "_" ++ fileBase f3 ++ ".txt"))

/-- Modelled from the spec: a file name with its extension removed, that
is, everything before the last dot (the whole name if it has no dot). -/
def stripExtension (s : String) : String :=
  if '.' ∈ s.data then
    String.mk ((s.data.reverse.dropWhile (fun c => c ≠ '.')).tail.reverse)
  else s

/-- C1: the four quadrant remaps are exactly the affine maps of the spec. -/
theorem c1_remap_formulas (sx sy x y w h : ℚ) :
    quadRemap 0 sx sy ⟨x, y, w, h⟩ = ⟨x * sx, y * sy, w * sx, h * sy⟩ ∧
    quadRemap 1 sx sy ⟨x, y, w, h⟩ =
      ⟨x * (1 - sx) + sx, y * sy, w * (1 - sx), h * sy⟩ ∧
    quadRemap 2 sx sy ⟨x, y, w, h⟩ =
      ⟨x * sx, y * (1 - sy) + sy, w * sx, h * (1 - sy)⟩ ∧
    quadRemap 3 sx sy ⟨x, y, w, h⟩ =
      ⟨x * (1 - sx) + sx, y * (1 - sy) + sy, w * (1 - sx), h * (1 - sy)⟩ := by
  refine ⟨rfl, rfl, rfl, rfl⟩

/-- C2: with canvas 800×800, scaleX = 0.4, scaleY = 0.6 the composer gets
divX = 320, divY = 480; quadrant target (w, h) pairs (320,480), (480,480),
(320,320), (480,320); and the top-right local box (0.5, 0.5, 0.2, 0.2)
remaps to x_center = 0.7, y_center = 0.3, width = 0.12, height = 0.12. -/
theorem c2_end_to_end_example :
    div_point_x 800 (2/5) = 320 ∧ div_point_y 800 (3/5) = 480 ∧
    (quadTargetW 800 (2/5) 0 = 320 ∧ quadTargetH 800 (3/5) 0 = 480) ∧
    (quadTargetW 800 (2/5) 1 = 480 ∧ quadTargetH 800 (3/5) 1 = 480) ∧
    (quadTargetW 800 (2/5) 2 = 320 ∧ quadTargetH 800 (3/5) 2 = 320) ∧
    (quadTargetW 800 (2/5) 3 = 480 ∧ quadTargetH 800 (3/5) 3 = 320) ∧
    quadRemap 1 (2/5) (3/5) ⟨1/2, 1/2, 1/5, 1/5⟩ =
      ⟨7/10, 3/10, 3/25, 3/25⟩ := by
  norm_num [div_point_x, div_point_y, pyInt, quadTargetW, quadTargetH,
    quadRemap, remap_box_1, Box.mk.injEq]

/-- C3: for a positive canvas and scales in (0,1), the split point is the
floor of the scaled size, it lies inside the canvas, the left/right widths
and top/bottom heights sum to the canvas size, and the four quadrant pixel
regions are pairwise disjoint with union the full canvas. -/
theorem c3_quadrants_tile_canvas (mo_w mo_h : ℕ) (sx sy : ℚ)
    (hw : 0 < mo_w) (hh : 0 < mo_h)
    (hx0 : 0 < sx) (hx1 : sx < 1) (hy0 : 0 < sy) (hy1 : sy < 1) :
    div_point_x mo_w sx = ⌊(mo_w : ℚ) * sx⌋ ∧
    div_point_y mo_h sy = ⌊(mo_h : ℚ) * sy⌋ ∧
    (0 ≤ div_point_x mo_w sx ∧ div_point_x mo_w sx ≤ mo_w) ∧
    (0 ≤ div_point_y mo_h sy ∧ div_point_y mo_h sy ≤ mo_h) ∧
    quadTargetW mo_w sx 0 + quadTargetW mo_w sx 1 = mo_w ∧
    quadTargetH mo_h sy 0 + quadTargetH mo_h sy 2 = mo_h ∧
    (∀ i j : Fin 4, i ≠ j → ∀ r c : ℤ,
      ¬(inQuad mo_w mo_h (div_point_x mo_w sx) (div_point_y mo_h sy) i r c ∧
        inQuad mo_w mo_h (div_point_x mo_w sx) (div_point_y mo_h sy) j r c)) ∧
    (∀ r c : ℤ, (0 ≤ r ∧ r < (mo_h : ℤ) ∧ 0 ≤ c ∧ c < (mo_w : ℤ)) ↔
      ∃ i : Fin 4,
        inQuad mo_w mo_h (div_point_x mo_w sx) (div_point_y mo_h sy) i r c) := by
  have hxprod : (0 : ℚ) ≤ (mo_w : ℚ) * sx :=
    mul_nonneg (Nat.cast_nonneg mo_w) hx0.le
  have hyprod : (0 : ℚ) ≤ (mo_h : ℚ) * sy :=
    mul_nonneg (Nat.cast_nonneg mo_h) hy0.le
  have hfx : div_point_x mo_w sx = ⌊(mo_w : ℚ) * sx⌋ := by
    simp [div_point_x, pyInt, hxprod]
  have hfy : div_point_y mo_h sy = ⌊(mo_h : ℚ) * sy⌋ := by
    simp [div_point_y, pyInt, hyprod]
  have hx_le : (mo_w : ℚ) * sx ≤ (mo_w : ℚ) := by
    calc (mo_w : ℚ) * sx ≤ (mo_w : ℚ) * 1 := by
          exact mul_le_mul_of_nonneg_left hx1.le (Nat.cast_nonneg mo_w)
      _ = (mo_w : ℚ) := mul_one _
  have hy_le : (mo_h : ℚ) * sy ≤ (mo_h : ℚ) := by
    calc (mo_h : ℚ) * sy ≤ (mo_h : ℚ) * 1 := by
          exact mul_le_mul_of_nonneg_left hy1.le (Nat.cast_nonneg mo_h)
      _ = (mo_h : ℚ) := mul_one _
  have hdx0 : 0 ≤ div_point_x mo_w sx := by
    rw [hfx]; exact Int.floor_nonneg.mpr hxprod
  have hdx1 : div_point_x mo_w sx ≤ (mo_w : ℤ) := by
    rw [hfx]
    calc ⌊(mo_w : ℚ) * sx⌋ ≤ ⌊(mo_w : ℚ)⌋ := Int.floor_le_floor hx_le
      _ = (mo_w : ℤ) := Int.floor_natCast mo_w
  have hdy0 : 0 ≤ div_point_y mo_h sy := by
    rw [hfy]; exact Int.floor_nonneg.mpr hyprod
  have hdy1 : div_point_y mo_h sy ≤ (mo_h : ℤ) := by
    rw [hfy]
    calc ⌊(mo_h : ℚ) * sy⌋ ≤ ⌊(mo_h : ℚ)⌋ := Int.floor_le_floor hy_le
      _ = (mo_h : ℤ) := Int.floor_natCast mo_h
  refine ⟨hfx, hfy, ⟨hdx0, hdx1⟩, ⟨hdy0, hdy1⟩, ?_, ?_, ?_, ?_⟩
  · show div_point_x mo_w sx + ((mo_w : ℤ) - div_point_x mo_w sx) = (mo_w : ℤ)
    ring
  · show div_point_y mo_h sy + ((mo_h : ℤ) - div_point_y mo_h sy) = (mo_h : ℤ)
    ring
  · intro i j hij r c ⟨hi, hj⟩
    fin_cases i <;> fin_cases j <;> simp_all [inQuad] <;> omega
  · intro r c
    constructor
    · rintro ⟨hr0, hr1, hc0, hc1⟩
      rcases lt_or_le r (div_point_y mo_h sy) with hr | hr <;>
        rcases lt_or_le c (div_point_x mo_w sx) with hc | hc
      · exact ⟨0, hr0, hr, hc0, hc⟩
      · exact ⟨1, hr0, hr, hc, hc1⟩
      · exact ⟨2, hr, hr1, hc0, hc⟩
      · exact ⟨3, hr, hr1, hc, hc1⟩
    · rintro ⟨i, hi⟩
      fin_cases i <;> simp_all [inQuad] <;> omega

/-- C3 witness: the tiling theorem instantiated at canvas 800×800,
scaleX = 0.4, scaleY = 0.6. -/
theorem c3_quadrants_tile_canvas_witness :
    0 < (800 : ℕ) ∧ (0 : ℚ) < 2/5 ∧
    (div_point_x 800 (2/5) = ⌊(800 : ℚ) * (2/5)⌋ ∧
     div_point_y 800 (3/5) = ⌊(800 : ℚ) * (3/5)⌋ ∧
     (0 ≤ div_point_x 800 (2/5) ∧ div_point_x 800 (2/5) ≤ 800) ∧
     (0 ≤ div_point_y 800 (3/5) ∧ div_point_y 800 (3/5) ≤ 800) ∧
     quadTargetW 800 (2/5) 0 + quadTargetW 800 (2/5) 1 = 800 ∧
     quadTargetH 800 (3/5) 0 + quadTargetH 800 (3/5) 2 = 800 ∧
     (∀ i j : Fin 4, i ≠ j → ∀ r c : ℤ,
       ¬(inQuad 800 800 (div_point_x 800 (2/5)) (div_point_y 800 (3/5)) i r c ∧
         inQuad 800 800 (div_point_x 800 (2/5)) (div_point_y 800 (3/5)) j r c)) ∧
     (∀ r c : ℤ, (0 ≤ r ∧ r < (800 : ℤ) ∧ 0 ≤ c ∧ c < (800 : ℤ)) ↔
       ∃ i : Fin 4,
         inQuad 800 800 (div_point_x 800 (2/5)) (div_point_y 800 (3/5)) i r c)) :=
  ⟨by norm_num, by norm_num,
   c3_quadrants_tile_canvas 800 800 (2/5) (3/5) (by norm_num) (by norm_num)
     (by norm_num) (by norm_num) (by norm_num) (by norm_num)⟩

theorem remap_box_0_inUnit (sx sy : ℚ) (b : Box)
    (hx0 : 0 < sx) (hx1 : sx < 1) (hy0 : 0 < sy) (hy1 : sy < 1)
    (hb : b.inUnit) : (remap_box_0 sx sy b).inUnit := by
  obtain ⟨bx0, bx1, by0, by1, bw0, bw1, bh0, bh1⟩ := hb
  refine ⟨?_, ?_, ?_, ?_, ?_, ?_, ?_, ?_⟩ <;>
    simp only [remap_box_0] <;> nlinarith

theorem remap_box_1_inUnit (sx sy : ℚ) (b : Box)
    (hx0 : 0 < sx) (hx1 : sx < 1) (hy0 : 0 < sy) (hy1 : sy < 1)
    (hb : b.inUnit) : (remap_box_1 sx sy b).inUnit := by
  obtain ⟨bx0, bx1, by0, by1, bw0, bw1, bh0, bh1⟩ := hb
  refine ⟨?_, ?_, ?_, ?_, ?_, ?_, ?_, ?_⟩ <;>
    simp only [remap_box_1] <;> nlinarith

theorem remap_box_2_inUnit (sx sy : ℚ) (b : Box)
    (hx0 : 0 < sx) (hx1 : sx < 1) (hy0 : 0 < sy) (hy1 : sy < 1)
    (hb : b.inUnit) : (remap_box_2 sx sy b).inUnit := by
  obtain ⟨bx0, bx1, by0, by1, bw0, bw1, bh0, bh1⟩ := hb
  refine ⟨?_, ?_, ?_, ?_, ?_, ?_, ?_, ?_⟩ <;>
    simp only [remap_box_2] <;> nlinarith

theorem remap_box_3_inUnit (sx sy : ℚ) (b : Box)
    (hx0 : 0 < sx) (hx1 : sx < 1) (hy0 : 0 < sy) (hy1 : sy < 1)
    (hb : b.inUnit) : (remap_box_3 sx sy b).inUnit := by
  obtain ⟨bx0, bx1, by0, by1, bw0, bw1, bh0, bh1⟩ := hb
  refine ⟨?_, ?_, ?_, ?_, ?_, ?_, ?_, ?_⟩ <;>
    simp only [remap_box_3] <;> nlinarith

/-- C4: each quadrant remap sends a valid local box to a valid canvas box
whenever the scales lie in the open interval (0,1). -/
theorem c4_remap_keeps_unit_range (i : Fin 4) (sx sy : ℚ) (b : Box)
    (hx0 : 0 < sx) (hx1 : sx < 1) (hy0 : 0 < sy) (hy1 : sy < 1)
    (hb : b.inUnit) : (quadRemap i sx sy b).inUnit :=
  match i with
  | 0 => remap_box_0_inUnit sx sy b hx0 hx1 hy0 hy1 hb
  | 1 => remap_box_1_inUnit sx sy b hx0 hx1 hy0 hy1 hb
  | 2 => remap_box_2_inUnit sx sy b hx0 hx1 hy0 hy1 hb
  | 3 => remap_box_3_inUnit sx sy b hx0 hx1 hy0 hy1 hb

/-- C4 witness: a concrete valid box stays valid under the top-right remap
with scaleX = 0.4, scaleY = 0.6. -/
theorem c4_remap_keeps_unit_range_witness :
    Box.inUnit ⟨1/2, 1/2, 1/5, 1/5⟩ ∧
    Box.inUnit (quadRemap 1 (2/5) (3/5) ⟨1/2, 1/2, 1/5, 1/5⟩) :=
  ⟨by norm_num [Box.inUnit],
   c4_remap_keeps_unit_range 1 (2/5) (3/5) ⟨1/2, 1/2, 1/5, 1/5⟩
     (by norm_num) (by norm_num) (by norm_num) (by norm_num)
     (by norm_num [Box.inUnit])⟩

/-- C10: the remap stage of any quadrant is length- and index-preserving on
boxes (`bboxes_i_new[j]` is the remap of `bboxes_i[j]`) and leaves the
label list of the quadrant completely unchanged. -/
theorem c10_remap_stage_drops_nothing (i : Fin 4) (sx sy : ℚ)
    (bs : List Box) (ls : List ℕ) :
    (quad_stage i sx sy (bs, ls)).1.length = bs.length ∧
    (∀ j : ℕ, (quad_stage i sx sy (bs, ls)).1[j]? =
      (bs[j]?).map (quadRemap i sx sy)) ∧
    (quad_stage i sx sy (bs, ls)).2 = ls := by
  refine ⟨?_, ?_, rfl⟩ <;> simp only [quad_stage, remap_bboxes]
  · by_cases hbs : bs.length = 0 <;> simp [hbs]
  · intro j
    by_cases hbs : bs.length = 0
    · rcases List.length_eq_zero.mp hbs with rfl
      simp
    · simp [hbs]

theorem remap_bboxes_length (i : Fin 4) (sx sy : ℚ) (bs : List Box) :
    (remap_bboxes i sx sy bs).length = bs.length := by
  simp only [remap_bboxes]
  by_cases hbs : bs.length = 0 <;> simp [hbs]

theorem writeShapeOk_canonical_example :
    ∀ j : Fin 4, writeShapeOk 800 800 (2/5) (3/5) j := by
  have hdx : div_point_x 800 (2/5) = 320 := by norm_num [div_point_x, pyInt]
  have hdy : div_point_y 800 (3/5) = 480 := by norm_num [div_point_y, pyInt]
  intro j
  fin_cases j <;>
    refine ⟨?_, ?_⟩ <;>
    simp [quadSliceRows, quadSliceCols, quadTargetW, quadTargetH, hdx, hdy,
      sliceToLen, sliceFromLen]

/-- C5: when the four crops succeed with as many boxes as labels and the
quadrant writes are shape-consistent, the final box and label sequences
are the concatenations of the four quadrant contributions in order
0,1,2,3 (order preserved inside each contribution), the final sequences
have equal length, and the positional pairing of box and label survives
the merge. -/
theorem c5_merge_concatenation (mo_w mo_h : ℕ) (sx sy : ℚ)
    (crop : Fin 4 → Option (List Box × List ℕ))
    (b0 b1 b2 b3 : List Box) (l0 l1 l2 l3 : List ℕ)
    (hc0 : crop 0 = some (b0, l0)) (hc1 : crop 1 = some (b1, l1))
    (hc2 : crop 2 = some (b2, l2)) (hc3 : crop 3 = some (b3, l3))
    (hw : ∀ j : Fin 4, writeShapeOk mo_w mo_h sx sy j)
    (h0 : b0.length = l0.length) (h1 : b1.length = l1.length)
    (h2 : b2.length = l2.length) (h3 : b3.length = l3.length) :
    ∃ bs ls,
      mosaic_core mo_w mo_h sx sy crop = Except.ok (bs, ls) ∧
      bs = (quad_stage 0 sx sy (b0, l0)).1 ++ (quad_stage 1 sx sy (b1, l1)).1 ++
           (quad_stage 2 sx sy (b2, l2)).1 ++ (quad_stage 3 sx sy (b3, l3)).1 ∧
      ls = (quad_stage 0 sx sy (b0, l0)).2 ++ (quad_stage 1 sx sy (b1, l1)).2 ++
           (quad_stage 2 sx sy (b2, l2)).2 ++ (quad_stage 3 sx sy (b3, l3)).2 ∧
      bs.length = ls.length ∧
      bs.zip ls =
        (quad_stage 0 sx sy (b0, l0)).1.zip (quad_stage 0 sx sy (b0, l0)).2 ++
        (quad_stage 1 sx sy (b1, l1)).1.zip (quad_stage 1 sx sy (b1, l1)).2 ++
        (quad_stage 2 sx sy (b2, l2)).1.zip (quad_stage 2 sx sy (b2, l2)).2 ++
        (quad_stage 3 sx sy (b3, l3)).1.zip (quad_stage 3 sx sy (b3, l3)).2 := by
  have hm : mosaic_core mo_w mo_h sx sy crop =
      Except.ok (remap_bboxes 0 sx sy b0 ++ remap_bboxes 1 sx sy b1 ++
                 remap_bboxes 2 sx sy b2 ++ remap_bboxes 3 sx sy b3,
                 new_class_labels l0 l1 l2 l3) := by
    simp [mosaic_core, quad_result, hc0, hc1, hc2, hc3, hw 0, hw 1, hw 2, hw 3]
  refine ⟨_, _, hm, rfl, rfl, ?_, ?_⟩
  · simp [new_class_labels, remap_bboxes_length, h0, h1, h2, h3]
  · show (remap_bboxes 0 sx sy b0 ++ remap_bboxes 1 sx sy b1 ++
        remap_bboxes 2 sx sy b2 ++ remap_bboxes 3 sx sy b3).zip
        (new_class_labels l0 l1 l2 l3) = _
    simp only [new_class_labels, quad_stage]
    rw [List.zip_append
          (by simp [remap_bboxes_length, h0, h1, h2]),
        List.zip_append
          (by simp [remap_bboxes_length, h0, h1]),
        List.zip_append
          (by rw [remap_bboxes_length]; exact h0)]

/-- C5 witness: the merge theorem at a concrete crop outcome where every
quadrant returns one box and one label, on the 800×800 canvas with
scaleX = 0.4, scaleY = 0.6. -/
theorem c5_merge_concatenation_witness :
    (fun _ : Fin 4 => some ([Box.mk (1/2) (1/2) (1/5) (1/5)], [3])) 0 =
      some ([Box.mk (1/2) (1/2) (1/5) (1/5)], [3]) ∧
    (∃ bs ls,
      mosaic_core 800 800 (2/5) (3/5)
          (fun _ : Fin 4 => some ([Box.mk (1/2) (1/2) (1/5) (1/5)], [3])) =
        Except.ok (bs, ls) ∧
      bs = (quad_stage 0 (2/5) (3/5) ([Box.mk (1/2) (1/2) (1/5) (1/5)], [3])).1 ++
           (quad_stage 1 (2/5) (3/5) ([Box.mk (1/2) (1/2) (1/5) (1/5)], [3])).1 ++
           (quad_stage 2 (2/5) (3/5) ([Box.mk (1/2) (1/2) (1/5) (1/5)], [3])).1 ++
           (quad_stage 3 (2/5) (3/5) ([Box.mk (1/2) (1/2) (1/5) (1/5)], [3])).1 ∧
      ls = (quad_stage 0 (2/5) (3/5) ([Box.mk (1/2) (1/2) (1/5) (1/5)], [3])).2 ++
           (quad_stage 1 (2/5) (3/5) ([Box.mk (1/2) (1/2) (1/5) (1/5)], [3])).2 ++
           (quad_stage 2 (2/5) (3/5) ([Box.mk (1/2) (1/2) (1/5) (1/5)], [3])).2 ++
           (quad_stage 3 (2/5) (3/5) ([Box.mk (1/2) (1/2) (1/5) (1/5)], [3])).2 ∧
      bs.length = ls.length ∧
      bs.zip ls =
        (quad_stage 0 (2/5) (3/5) ([Box.mk (1/2) (1/2) (1/5) (1/5)], [3])).1.zip
          (quad_stage 0 (2/5) (3/5) ([Box.mk (1/2) (1/2) (1/5) (1/5)], [3])).2 ++
        (quad_stage 1 (2/5) (3/5) ([Box.mk (1/2) (1/2) (1/5) (1/5)], [3])).1.zip
          (quad_stage 1 (2/5) (3/5) ([Box.mk (1/2) (1/2) (1/5) (1/5)], [3])).2 ++
        (quad_stage 2 (2/5) (3/5) ([Box.mk (1/2) (1/2) (1/5) (1/5)], [3])).1.zip
          (quad_stage 2 (2/5) (3/5) ([Box.mk (1/2) (1/2) (1/5) (1/5)], [3])).2 ++
        (quad_stage 3 (2/5) (3/5) ([Box.mk (1/2) (1/2) (1/5) (1/5)], [3])).1.zip
          (quad_stage 3 (2/5) (3/5) ([Box.mk (1/2) (1/2) (1/5) (1/5)], [3])).2) :=
  ⟨rfl, c5_merge_concatenation 800 800 (2/5) (3/5)
    (fun _ : Fin 4 => some ([Box.mk (1/2) (1/2) (1/5) (1/5)], [3]))
    [Box.mk (1/2) (1/2) (1/5) (1/5)] [Box.mk (1/2) (1/2) (1/5) (1/5)]
    [Box.mk (1/2) (1/2) (1/5) (1/5)] [Box.mk (1/2) (1/2) (1/5) (1/5)]
    [3] [3] [3] [3] rfl rfl rfl rfl writeShapeOk_canonical_example
    rfl rfl rfl rfl⟩

/-- C7: a quadrant write changes the canvas only inside that quadrant's
pixel region (outside it the previous canvas value is kept), and distinct
quadrants' regions are disjoint, so the four writes never touch a common
canvas position. -/
theorem c7_quadrant_write_is_local (mo_w mo_h : ℕ) (divX divY : ℤ)
    (i : Fin 4) (img canvas : ℤ → ℤ → ℕ) :
    (∀ r c : ℤ, ¬ inQuad mo_w mo_h divX divY i r c →
      writeQuad mo_w mo_h divX divY i img canvas r c = canvas r c) ∧
    (∀ r c : ℤ, writeQuad mo_w mo_h divX divY i img canvas r c ≠ canvas r c →
      inQuad mo_w mo_h divX divY i r c) ∧
    (∀ j : Fin 4, j ≠ i → ∀ r c : ℤ,
      ¬(inQuad mo_w mo_h divX divY i r c ∧
        inQuad mo_w mo_h divX divY j r c)) := by
  refine ⟨?_, ?_, ?_⟩
  · intro r c hout
    simp [writeQuad, hout]
  · intro r c hne
    by_contra hout
    exact hne (by simp [writeQuad, hout])
  · intro j hij r c ⟨hi, hj⟩
    fin_cases i <;> fin_cases j <;> simp_all [inQuad] <;> omega

/-- C7 witness: at canvas 800×800 with divX = 320, divY = 480, position
(row 0, column 400) lies outside quadrant 0's region and is untouched by
quadrant 0's write; regions 0 and 1 share no position. -/
theorem c7_quadrant_write_is_local_witness :
    ¬ inQuad 800 800 320 480 0 0 400 ∧
    writeQuad 800 800 320 480 0 (fun _ _ => 1) (fun _ _ => 0) 0 400 = 0 ∧
    ¬(inQuad 800 800 320 480 0 0 400 ∧ inQuad 800 800 320 480 1 0 400) :=
  ⟨by decide,
   (c7_quadrant_write_is_local 800 800 320 480 0
      (fun _ _ => 1) (fun _ _ => 0)).1 0 400 (by decide),
   (c7_quadrant_write_is_local 800 800 320 480 0
      (fun _ _ => 1) (fun _ _ => 0)).2.2 1 (by decide) 0 400⟩

/-- C8: a quadrant whose crop succeeds with no boxes (and hence no labels)
contributes empty box and label lists without an error, and when all four
crops return zero boxes under shape-consistent writes the composer still
returns a result, with empty box and label sequences and no error. -/
theorem c8_zero_box_quadrant (mo_w mo_h : ℕ) (sx sy : ℚ) (i : Fin 4)
    (crop : Fin 4 → Option (List Box × List ℕ))
    (hi : crop i = some ([], []))
    (hw : ∀ j : Fin 4, writeShapeOk mo_w mo_h sx sy j) :
    quad_result mo_w mo_h sx sy crop i = Except.ok ([], []) ∧
    quad_stage i sx sy ([], []) = ([], []) ∧
    mosaic_core mo_w mo_h sx sy (fun _ => some ([], [])) =
      Except.ok ([], []) := by
  refine ⟨?_, rfl, ?_⟩
  · simp [quad_result, hi, hw i, remap_bboxes]
  · simp [mosaic_core, quad_result, hw 0, hw 1, hw 2, hw 3, remap_bboxes,
      new_class_labels]

/-- C8 witness: the zero-box theorem at quadrant 2 with every crop
returning no boxes, on the 800×800 canvas with scaleX = 0.4,
scaleY = 0.6. -/
theorem c8_zero_box_quadrant_witness :
    (fun _ : Fin 4 => some (([] : List Box), ([] : List ℕ))) 2 =
      some ([], []) ∧
    (quad_result 800 800 (2/5) (3/5)
        (fun _ : Fin 4 => some (([] : List Box), ([] : List ℕ))) 2 =
        Except.ok ([], []) ∧
     quad_stage 2 (2/5) (3/5) ([], []) = ([], []) ∧
     mosaic_core 800 800 (2/5) (3/5) (fun _ => some ([], [])) =
       Except.ok ([], [])) :=
  ⟨rfl, c8_zero_box_quadrant 800 800 (2/5) (3/5) 2
    (fun _ : Fin 4 => some (([] : List Box), ([] : List ℕ))) rfl
    writeShapeOk_canonical_example⟩

theorem writeShapeOk_violation_example :
    ¬ writeShapeOk 800 800 (3/2) (3/5) 0 := by
  have hdx : div_point_x 800 (3/2) = 1200 := by norm_num [div_point_x, pyInt]
  intro h
  obtain ⟨_, hcols⟩ := h
  rw [show quadSliceCols 800 (div_point_x 800 (3/2)) 0 =
        sliceToLen 800 (div_point_x 800 (3/2)) from rfl,
      show quadTargetW 800 (3/2) 0 = div_point_x 800 (3/2) from rfl,
      hdx] at hcols
  norm_num [sliceToLen] at hcols

theorem quad_result_not_invalid_geometry (mo_w mo_h : ℕ) (sx sy : ℚ)
    (crop : Fin 4 → Option (List Box × List ℕ)) (i : Fin 4) :
    quad_result mo_w mo_h sx sy crop i ≠
      Except.error PyError.invalidGeometry := by
  cases h : crop i with
  | none => simp [quad_result, h]
  | some bl =>
    obtain ⟨bs, ls⟩ := bl
    by_cases hw : writeShapeOk mo_w mo_h sx sy i <;> simp [quad_result, h, hw]

/-- C6 counterexample: with scaleX = 1.5 outside (0,1) and a successful
quadrant-0 crop, the mosaic run does not fail fast with an InvalidGeometry
error: it computes the split point divX = 1200, crops quadrant 0 to the
(480, 1200) target, and only then aborts with numpy's ValueError at the
quadrant-0 canvas write, whose (480, 800) slice cannot accept the cropped
image. -/
theorem c6_counterexample_value_error_not_invalid_geometry :
    ¬((3/2 : ℚ) < 1) ∧
    div_point_x 800 (3/2) = 1200 ∧
    mosaic_core 800 800 (3/2) (3/5) (fun _ => some ([], [])) =
      Except.error PyError.valueError ∧
    mosaic_core 800 800 (3/2) (3/5) (fun _ => some ([], [])) ≠
      Except.error PyError.invalidGeometry := by
  have hm : mosaic_core 800 800 (3/2) (3/5) (fun _ => some ([], [])) =
      Except.error PyError.valueError := by
    simp [mosaic_core, quad_result, writeShapeOk_violation_example]
  refine ⟨by norm_num, by norm_num [div_point_x, pyInt], hm, ?_⟩
  rw [hm]
  simp

/-- C6 amended: the composer performs no geometry validation and has no
InvalidGeometry error site at all; when a quadrant's canvas write is
shape-inconsistent (as happens for scaleX outside (0,1) that pushes the
split point outside the canvas) the run aborts with the downstream
ValueError of that write — after the quadrant-0 crop work, so not fail
fast — and no run, whatever its inputs, ever produces an InvalidGeometry
error. -/
theorem c6_no_validation_failure_is_downstream (mo_w mo_h : ℕ) (sx sy : ℚ)
    (crop : Fin 4 → Option (List Box × List ℕ))
    (bl : List Box × List ℕ) (hc : crop 0 = some bl)
    (hbad : ¬ writeShapeOk mo_w mo_h sx sy 0) :
    mosaic_core mo_w mo_h sx sy crop = Except.error PyError.valueError ∧
    ∀ (mw mh : ℕ) (sx' sy' : ℚ)
      (crop' : Fin 4 → Option (List Box × List ℕ)),
      mosaic_core mw mh sx' sy' crop' ≠
        Except.error PyError.invalidGeometry := by
  constructor
  · obtain ⟨bs, ls⟩ := bl
    simp [mosaic_core, quad_result, hc, hbad]
  · intro mw mh sx' sy' crop'
    have h0 := quad_result_not_invalid_geometry mw mh sx' sy' crop' 0
    have h1 := quad_result_not_invalid_geometry mw mh sx' sy' crop' 1
    have h2 := quad_result_not_invalid_geometry mw mh sx' sy' crop' 2
    have h3 := quad_result_not_invalid_geometry mw mh sx' sy' crop' 3
    unfold mosaic_core
    cases hq0 : quad_result mw mh sx' sy' crop' 0 with
    | error e => rw [hq0] at h0; simpa using h0
    | ok p0 =>
      obtain ⟨b0, l0⟩ := p0
      cases hq1 : quad_result mw mh sx' sy' crop' 1 with
      | error e => rw [hq1] at h1; simpa using h1
      | ok p1 =>
        obtain ⟨b1, l1⟩ := p1
        cases hq2 : quad_result mw mh sx' sy' crop' 2 with
        | error e => rw [hq2] at h2; simpa using h2
        | ok p2 =>
          obtain ⟨b2, l2⟩ := p2
          cases hq3 : quad_result mw mh sx' sy' crop' 3 with
          | error e => rw [hq3] at h3; simpa using h3
          | ok p3 =>
            obtain ⟨b3, l3⟩ := p3
            simp

/-- C6 witness: the amended theorem at the concrete failing geometry
scaleX = 1.5 on an 800×800 canvas with successful empty crops. -/
theorem c6_no_validation_failure_is_downstream_witness :
    ¬ writeShapeOk 800 800 (3/2) (3/5) 0 ∧
    (mosaic_core 800 800 (3/2) (3/5) (fun _ => some ([], [])) =
        Except.error PyError.valueError ∧
     ∀ (mw mh : ℕ) (sx' sy' : ℚ)
       (crop' : Fin 4 → Option (List Box × List ℕ)),
       mosaic_core mw mh sx' sy' crop' ≠
         Except.error PyError.invalidGeometry) :=
  ⟨writeShapeOk_violation_example,
   c6_no_validation_failure_is_downstream 800 800 (3/2) (3/5)
     (fun _ => some ([], [])) ([], []) rfl writeShapeOk_violation_example⟩

/-- C9 counterexample: for a source name with two dots the code keeps only
the part before the first dot, not the name with its extension removed, so
the produced paths differ from the claimed ones. -/
theorem c9_counterexample_first_dot_not_extension :
    fileBase "a.b.jpg" = "a" ∧
    stripExtension "a.b.jpg" = "a.b" ∧
    create_data_store_path "imgs" "lbls" "a.b.jpg" "c.jpg" "d.jpg" "e.jpg" =
      ("imgs/mo_a_c_d_e.jpg", "lbls/mo_a_c_d_e.txt") ∧
    create_data_store_path "imgs" "lbls" "a.b.jpg" "c.jpg" "d.jpg" "e.jpg" ≠
      ("imgs/mo_a.b_c_d_e.jpg", "lbls/mo_a.b_c_d_e.txt") := by
  refine ⟨by decide, by decide, by decide, by decide⟩

theorem fileBase_of_extension (b e : String) (hb : '.' ∉ b.data) :
    fileBase (b ++ "." ++ e) = b := by
  apply String.ext
  show ((b ++ "." ++ e).data.takeWhile (fun c => c ≠ '.')) = b.data
  rw [String.data_append, String.data_append]
  have hdot : (".").data ++ e.data = '.' :: e.data := rfl
  rw [List.append_assoc, hdot,
    List.takeWhile_append_of_pos (fun a ha => by
      simp only [ne_eq, decide_eq_true_eq]
      exact fun hc => hb (hc ▸ ha))]
  simp [List.takeWhile_cons]

/-- C9 amended: the output paths are a pure function of the four source
names and the output directories of the shape
`<dir>/mo_<b0>_<b1>_<b2>_<b3>.<ext>`, where each base is the part of the
name before its FIRST dot (which equals the name with its extension
removed only when the name has a single dot) and the image extension is
always `.jpg` regardless of the source extensions. -/
theorem c9_paths_for_single_dot_names (dimg dlbl : String)
    (b0 e0 b1 e1 b2 e2 b3 e3 : String)
    (h0 : '.' ∉ b0.data) (h1 : '.' ∉ b1.data)
    (h2 : '.' ∉ b2.data) (h3 : '.' ∉ b3.data) :
    create_data_store_path dimg dlbl (b0 ++ "." ++ e0) (b1 ++ "." ++ e1)
        (b2 ++ "." ++ e2) (b3 ++ "." ++ e3) =
      (dimg ++ "/" ++ ("mo_" ++ b0 ++ "_" ++ b1 ++ "_" ++ b2 ++ "_" ++
          b3 ++ ".jpg"),
       dlbl ++ "/" ++ ("mo_" ++ b0 ++ "_" ++ b1 ++ "_" ++ b2 ++ "_" ++
          b3 ++ ".txt")) := by
  simp only [create_data_store_path, fileBase_of_extension b0 e0 h0,
    fileBase_of_extension b1 e1 h1, fileBase_of_extension b2 e2 h2,
    fileBase_of_extension b3 e3 h3]

/-- C9 witness: the amended path theorem at four concrete single-dot
names. -/
theorem c9_paths_for_single_dot_names_witness :
    '.' ∉ ("img1" : String).data ∧
    create_data_store_path "imgs" "lbls" ("img1" ++ "." ++ "jpg")
        ("img2" ++ "." ++ "png") ("img3" ++ "." ++ "jpg")
        ("img4" ++ "." ++ "jpeg") =
      ("imgs" ++ "/" ++ ("mo_" ++ "img1" ++ "_" ++ "img2" ++ "_" ++
          "img3" ++ "_" ++ "img4" ++ ".jpg"),
       "lbls" ++ "/" ++ ("mo_" ++ "img1" ++ "_" ++ "img2" ++ "_" ++
          "img3" ++ "_" ++ "img4" ++ ".txt")) :=
  ⟨by decide,
   c9_paths_for_single_dot_names "imgs" "lbls" "img1" "jpg" "img2" "png"
     "img3" "jpg" "img4" "jpeg" (by decide) (by decide) (by decide)
     (by decide)⟩
